import Mathlib

/-!
Shallow embedding of the playground orchestration layer (`src/playground.ts`)
and its six cloud-provider adapters, together with proofs about provider
selection, readiness polling, destroy-error tolerance and TTL/expiry logic.

External effects are made explicit:
* the clock read `Math.floor(Date.now() / 1000)` becomes a `now : Int` parameter;
* each provider's describe primitive becomes a stream `describe : Nat → σ`
  whose `n`-th element is the snapshot returned by the `n`-th describe call;
* each vendor SDK/HTTP call outcome becomes an `Except String _` parameter
  (the `String` is the thrown error's `message`).
-/

/-- `ImageMapping` from `src/playground.ts`: one routing-table entry. -/
structure ImageMapping where
  provider : String
  image : String
  size : String
  priority : Int
  ttl : Option Int
deriving Repr, DecidableEq

/-- `ImageSpec` from `src/providers/provider.ts`. -/
structure ImageSpec where
  image : String
  size : String
deriving Repr, DecidableEq

/-- `Instance` from `src/providers/provider.ts`. The opaque `providerData`
diagnostics payload is not modelled (never interpreted by the core). -/
structure Instance where
  id : String
  ip : String
deriving Repr, DecidableEq

/-- `PlaygroundInstance` from `src/playground.ts` (the extended record). -/
structure PlaygroundInstance where
  id : String
  ip : String
  provider : String
  imageType : String
  createdAt : Int
  ttl : Int
  sshKey : String
deriving Repr, DecidableEq

/-- `CreateInstanceArgs` from `src/playground.ts`. -/
structure CreateInstanceArgs where
  imageType : String
  sshKey : String
  startupScript : Option String
  preferredProvider : Option String
deriving Repr, DecidableEq

/-- The distinct `throw new Error(...)` sites of `src/playground.ts`,
plus a constructor for errors propagated from a provider adapter. -/
inductive PlaygroundError where
  | unknownImageType (imageType : String)
  | providerUnavailable (providerName : String)
  | noAvailableProviders
  | providerFailure (message : String)
deriving Repr, DecidableEq

/-- Message of the `throw` in `Playground.selectProvider`: a fixed string,
with no interpolation of the image type. -/
def noAvailableProvidersMessage : String :=
  "No available providers for the requested image type"

/-- The `message` of each throw site (source interpolates via template
literals; `providerUnavailable` additionally wraps the name in single
quotes, which we drop as immaterial to the claims). -/
def errorMessage : PlaygroundError → String
  | .unknownImageType t => "No image mappings found for image type: " ++ t
  | .providerUnavailable n => "Provider " ++ n ++ " not available"
  | .noAvailableProviders => noAvailableProvidersMessage
  | .providerFailure m => m

/-- JS `String.prototype.includes`: substring containment. -/
def strContains (s sub : String) : Bool :=
  (List.range (s.length + 1)).any fun i => sub.data.isPrefixOf (s.data.drop i)

/-- JS `x || d` for `x : number | undefined`: `undefined` and `0` are falsy. -/
def jsOr (x : Option Int) (d : Int) : Int :=
  match x with
  | none => d
  | some v => if v = 0 then d else v

/-- The `Playground` class state: the provider registry `Map` and the routing
table `Map`, both read-only after construction. A JS `Map` (unique keys) is
modelled as an association list queried with `List.lookup` (first match);
provider handles stay opaque (type parameter `P`). -/
structure Playground (P : Type) where
  providers : List (String × P)
  imageMappings : List (String × List ImageMapping)

/-- `this.providers.has(name)`. -/
def Playground.hasProvider {P : Type} (pg : Playground P) (name : String) : Bool :=
  (pg.providers.lookup name).isSome

/-- The comparator `(a, b) => a.priority - b.priority` passed to the (stable,
per ES2019) `Array.prototype.sort`, as the `le` relation of a stable sort. -/
def mappingLE (a b : ImageMapping) : Bool :=
  decide (a.priority ≤ b.priority)

/-- The early-return block of `Playground.selectProvider`: when a preferred
provider is supplied, `mappings.find(m => m.provider === preferredProvider)`
(first match in original order) guarded by `this.providers.has(...)`;
`none` means the block falls through to priority selection. -/
def preferredHit {P : Type} (pg : Playground P) (mappings : List ImageMapping)
    (preferredProvider : Option String) : Option ImageMapping :=
  match preferredProvider with
  | some pref =>
    match mappings.find? (fun m => m.provider == pref) with
    | some preferred =>
      if pg.hasProvider preferred.provider then some preferred else none
    | none => none
  | none => none

/-- `Playground.selectProvider` (`src/playground.ts` lines 390-409):
the preferred-provider early return, else filter to registered providers,
stable-sort ascending by priority and take the first element. -/
def selectProvider {P : Type} (pg : Playground P) (mappings : List ImageMapping)
    (preferredProvider : Option String) : Except PlaygroundError ImageMapping :=
  match preferredHit pg mappings preferredProvider with
  | some m => .ok m
  | none =>
    let availableMappings :=
      (mappings.filter (fun m => pg.hasProvider m.provider)).mergeSort mappingLE
    match availableMappings with
    | [] => .error .noAvailableProviders
    | m :: _ => .ok m

/-- `Playground.createInstance` (`src/playground.ts` lines 227-259).
`providerCreateVM` stands for the selected handle's `createVM` call;
`now` is `Math.floor(Date.now() / 1000)` at the return-building instant. -/
def createInstance {P : Type} (pg : Playground P)
    (providerCreateVM : P → ImageSpec → String → Option String → Except String Instance)
    (now : Int) (args : CreateInstanceArgs) : Except PlaygroundError PlaygroundInstance :=
  match pg.imageMappings.lookup args.imageType with
  | none => .error (.unknownImageType args.imageType)
  | some mappings =>
    if mappings.isEmpty then .error (.unknownImageType args.imageType)
    else
      match selectProvider pg mappings args.preferredProvider with
      | .error e => .error e
      | .ok selectedMapping =>
        match pg.providers.lookup selectedMapping.provider with
        | none => .error (.providerUnavailable selectedMapping.provider)
        | some provider =>
          match providerCreateVM provider ⟨selectedMapping.image, selectedMapping.size⟩
              args.sshKey args.startupScript with
          | .error msg => .error (.providerFailure msg)
          | .ok inst =>
            .ok { id := inst.id
                  ip := inst.ip
                  provider := selectedMapping.provider
                  imageType := args.imageType
                  createdAt := now
                  ttl := jsOr selectedMapping.ttl 3600
                  sshKey := args.sshKey }

/-- `Playground.getImageMappings` (`src/playground.ts` lines 359-361). -/
def getImageMappings {P : Type} (pg : Playground P) (imageType : String) :
    List ImageMapping :=
  (pg.imageMappings.lookup imageType).getD []

/-- Discriminates the defensive `ProviderUnavailable` branch of
`createInstance`. -/
def isProviderUnavailableResult : Except PlaygroundError PlaygroundInstance → Bool
  | .error (.providerUnavailable _) => true
  | _ => false

/-- `PlaygroundUtils.isExpired` (`src/playground.ts` lines 432-435),
with the clock read as a parameter. -/
def PlaygroundUtils.isExpired (now : Int) (inst : PlaygroundInstance) : Bool :=
  decide (now ≥ inst.createdAt + inst.ttl)

/-- `PlaygroundUtils.getTimeToExpiry` (`src/playground.ts` lines 453-456). -/
def PlaygroundUtils.getTimeToExpiry (now : Int) (inst : PlaygroundInstance) : Int :=
  inst.createdAt + inst.ttl - now

/-- `PlaygroundUtils.filterExpired`. -/
def PlaygroundUtils.filterExpired (now : Int) (l : List PlaygroundInstance) :
    List PlaygroundInstance :=
  l.filter (PlaygroundUtils.isExpired now)

/-- `PlaygroundUtils.filterActive`. -/
def PlaygroundUtils.filterActive (now : Int) (l : List PlaygroundInstance) :
    List PlaygroundInstance :=
  l.filter (fun i => !(PlaygroundUtils.isExpired now i))

/-! ## The readiness-polling loop

All four polling adapters share the textual shape
`for (attempt = 0; attempt < maxAttempts; attempt++) { s = describe(); if (ready(s)) return; sleep(delay) }
throw timeout`. `pollFrom describe ready remaining i` runs the remaining
iterations, the next describe call consuming stream index `i`; `calls`
counts the describe invocations actually made. `found = none` models the
fall-through to the timeout `throw`. -/

structure PollOutcome (σ : Type) where
  found : Option σ
  calls : Nat
deriving Repr, DecidableEq

def pollFrom {σ : Type} (describe : Nat → σ) (ready : σ → Bool) :
    Nat → Nat → PollOutcome σ
  | 0, _ => ⟨none, 0⟩
  | remaining + 1, i =>
    let s := describe i
    if ready s then ⟨some s, 1⟩
    else
      let rest := pollFrom describe ready remaining (i + 1)
      ⟨rest.found, rest.calls + 1⟩

def awaitReady {σ : Type} (describe : Nat → σ) (ready : σ → Bool)
    (maxAttempts : Nat) : PollOutcome σ :=
  pollFrom describe ready maxAttempts 0

/-! ## Hetzner adapter (`HetznerProvider`, unnamed source file) -/

structure HetznerIpv4 where
  ip : String
deriving Repr, DecidableEq

structure HetznerPublicNet where
  ipv4 : Option HetznerIpv4
deriving Repr, DecidableEq

structure HetznerServer where
  id : Nat
  status : String
  public_net : HetznerPublicNet
deriving Repr, DecidableEq

/-- `server.status === 'running' && server.public_net.ipv4?.ip`
(JS truthiness: a missing object or an empty string is falsy). -/
def hetznerReady (s : HetznerServer) : Bool :=
  s.status == "running" &&
    (match s.public_net.ipv4 with
     | some v => v.ip != ""
     | none => false)

/-- `HetznerProvider.waitForServerReady`: `maxAttempts = 30`. -/
def hetznerWaitForServerReady (describe : Nat → HetznerServer) : PollOutcome HetznerServer :=
  awaitReady describe hetznerReady 30

/-- `HetznerProvider.createVM`: create (response `createResp`), poll, then one
more `getServerDetails` (stream index `calls`) from which the returned `ip` is
read. Source reads `serverDetails.public_net.ipv4.ip` without the optional
chaining; the total embedding yields `""` when `ipv4` is absent. -/
def hetznerCreateVM (createResp : HetznerServer) (describe : Nat → HetznerServer) :
    Except String Instance :=
  let o := hetznerWaitForServerReady describe
  match o.found with
  | none => .error "Server failed to become ready within timeout"
  | some _ =>
    let serverDetails := describe o.calls
    .ok { id := Nat.repr createResp.id
          ip := (serverDetails.public_net.ipv4.map HetznerIpv4.ip).getD "" }

/-- `HetznerProvider.destroyVM`: tolerate a message containing `not found`,
re-throw anything else. -/
def hetznerDestroyVM (del : Except String Unit) : Except String Unit :=
  match del with
  | .ok _ => .ok ()
  | .error msg => if strContains msg "not found" then .ok () else .error msg

/-! ## DigitalOcean adapter (`src/providers/digitalocean.ts`) -/

structure DoNetV4 where
  ip_address : String
  netType : String
deriving Repr, DecidableEq

structure DoDroplet where
  id : Nat
  status : String
  networksV4 : List DoNetV4
deriving Repr, DecidableEq

/-- `droplet.status === 'active' && droplet.networks.v4.length > 0` and then
`networks.v4.some(net => net.type === 'public')`. -/
def doReady (d : DoDroplet) : Bool :=
  d.status == "active" && decide (0 < d.networksV4.length) &&
    d.networksV4.any (fun n => n.netType == "public")

/-- `DigitalOceanProvider.waitForDropletReady`: `maxAttempts = 30`. -/
def doWaitForDropletReady (describe : Nat → DoDroplet) : PollOutcome DoDroplet :=
  awaitReady describe doReady 30

/-- `DigitalOceanProvider.destroyVM`: HTTP DELETE; throw only when the
response is not ok and the status is not `404`. -/
def doDestroyVM (status : Nat) (errMsg : String) : Except String Unit :=
  let ok := decide (200 ≤ status) && decide (status < 300)
  if !ok && status != 404 then .error errMsg else .ok ()

/-! ## GCP adapter (`GCPProvider`, unnamed source file) -/

structure GcpInstance where
  idNum : Option Nat
  name : String
  status : String
  natIP : Option String
deriving Repr, DecidableEq

/-- `instance.status === 'RUNNING'` — the GCP poller checks only the status,
never the address. -/
def gcpReady (i : GcpInstance) : Bool :=
  i.status == "RUNNING"

/-- `GCPProvider.waitForVMReady`: `maxAttempts = 30`. -/
def gcpWaitForVMReady (describe : Nat → GcpInstance) : PollOutcome GcpInstance :=
  awaitReady describe gcpReady 30

/-- `GCPProvider.createVM`: insert, poll (status only), and read
`natIP || ''` from the snapshot the poller accepted. -/
def gcpCreateVM (vmName : String) (describe : Nat → GcpInstance) :
    Except String Instance :=
  let o := gcpWaitForVMReady describe
  match o.found with
  | none => .error "GCP VM failed to become RUNNING within timeout"
  | some inst =>
    .ok { id := (inst.idNum.map Nat.repr).getD vmName
          ip := inst.natIP.getD "" }

/-- `GCPProvider.destroyVM`: no catch at all — every error propagates,
including a not-found one. -/
def gcpDestroyVM (del : Except String Unit) : Except String Unit :=
  del

/-! ## AWS adapter (`AWSProvider`, unnamed source file) -/

/-- The view `AWSProvider.getVM` builds: `ip` is
`PublicIpAddress || PrivateIpAddress || ''`. -/
structure AwsVm where
  id : String
  ip : String
  state : String
deriving Repr, DecidableEq

/-- `instance.ip && instance.providerData.state === 'running'`. -/
def awsReady (v : AwsVm) : Bool :=
  v.ip != "" && v.state == "running"

/-- `AWSProvider.waitForInstanceReady`: `maxAttempts = 30`. -/
def awsWaitForInstanceReady (describe : Nat → AwsVm) : PollOutcome AwsVm :=
  awaitReady describe awsReady 30

/-- `AWSProvider.destroyVM`: tolerate `InvalidInstanceID.NotFound`,
re-throw anything else. -/
def awsDestroyVM (del : Except String Unit) : Except String Unit :=
  match del with
  | .ok _ => .ok ()
  | .error msg =>
    if strContains msg "InvalidInstanceID.NotFound" then .ok () else .error msg

/-! ## Oracle adapter (`src/providers/oracle.ts`) -/

structure OracleVnicDetails where
  subnetId : String
  publicIp : Option String
deriving Repr, DecidableEq

/-- `OracleProvider.createVNIC`: returns the first subnet and
`publicIp: undefined`. -/
def oracleCreateVNIC (subnetId : String) : OracleVnicDetails :=
  { subnetId := subnetId, publicIp := none }

/-- The `response.instance` of `launchInstance`. -/
structure OciInstance where
  id : String
  lifecycleState : String
deriving Repr, DecidableEq

/-- `OracleProvider.createVM` (lines 219-261): launch and return immediately —
no readiness polling — with `ip: vnicDetails.publicIp || ''`. -/
def oracleCreateVM (subnetId : String) (launched : OciInstance) : Instance :=
  let vnicDetails := oracleCreateVNIC subnetId
  { id := launched.id
    ip := vnicDetails.publicIp.getD "" }

/-- `OracleProvider.destroyVM`: tolerate a message containing `NotFound`,
re-throw anything else. -/
def oracleDestroyVM (terminate : Except String Unit) : Except String Unit :=
  match terminate with
  | .ok _ => .ok ()
  | .error msg => if strContains msg "NotFound" then .ok () else .error msg

/-! ## Azure adapter (`AzureProvider`, unnamed source file) -/

/-- `AzureProvider.destroyVM` (lines 701-708): all three delete calls carry
`.catch(() => {})`, so every provider error is swallowed. -/
def azureDestroyVM (delVM delNic delPip : Except String Unit) : Except String Unit :=
  let _ := delVM
  let _ := delNic
  let _ := delPip
  .ok ()

/-! ## Helper lemmas: the polling loop -/

theorem pollFrom_never_ready {σ : Type} (describe : Nat → σ) (ready : σ → Bool)
    (h : ∀ n, ready (describe n) = false) :
    ∀ (k i : Nat), pollFrom describe ready k i = ⟨none, k⟩ := by
  intro k
  induction k with
  | zero => intro i; rfl
  | succ k ih =>
    intro i
    simp [pollFrom, h i, ih (i + 1)]

theorem pollFrom_succ_ready {σ : Type} (describe : Nat → σ) (ready : σ → Bool)
    (k i : Nat) (hr : ready (describe i) = true) :
    pollFrom describe ready (k + 1) i = ⟨some (describe i), 1⟩ := by
  simp [pollFrom, hr]

theorem pollFrom_succ_not_ready {σ : Type} (describe : Nat → σ) (ready : σ → Bool)
    (k i : Nat) (hr : ready (describe i) = false) :
    pollFrom describe ready (k + 1) i =
      ⟨(pollFrom describe ready k (i + 1)).found,
       (pollFrom describe ready k (i + 1)).calls + 1⟩ := by
  simp [pollFrom, hr]

theorem pollFrom_found_spec {σ : Type} (describe : Nat → σ) (ready : σ → Bool) :
    ∀ (k i : Nat) (s : σ), (pollFrom describe ready k i).found = some s →
      1 ≤ (pollFrom describe ready k i).calls ∧
      s = describe (i + (pollFrom describe ready k i).calls - 1) ∧
      ready s = true := by
  intro k
  induction k with
  | zero => intro i s h; simp [pollFrom] at h
  | succ k ih =>
    intro i s h
    cases hr : ready (describe i) with
    | true =>
      rw [pollFrom_succ_ready describe ready k i hr] at h ⊢
      injection h with h
      subst h
      exact ⟨Nat.le_refl 1, by simp, hr⟩
    | false =>
      rw [pollFrom_succ_not_ready describe ready k i hr] at h ⊢
      obtain ⟨h1, h2, h3⟩ := ih (i + 1) s h
      refine ⟨?_, ?_, h3⟩
      · exact Nat.succ_le_succ (Nat.zero_le _)
      · show s = describe (i + ((pollFrom describe ready k (i + 1)).calls + 1) - 1)
        rw [h2]
        congr 1
        omega

theorem pollFrom_found_of_ready {σ : Type} (describe : Nat → σ) (ready : σ → Bool) :
    ∀ (k i j : Nat), j < k → ready (describe (i + j)) = true →
      ((pollFrom describe ready k i).found).isSome := by
  intro k
  induction k with
  | zero => intro i j hj _; omega
  | succ k ih =>
    intro i j hj hr
    cases h0 : ready (describe i) with
    | true => rw [pollFrom_succ_ready describe ready k i h0]; rfl
    | false =>
      rw [pollFrom_succ_not_ready describe ready k i h0]
      cases j with
      | zero =>
        rw [Nat.add_zero] at hr
        rw [h0] at hr
        cases hr
      | succ j =>
        have hrw : (i + 1) + j = i + (j + 1) := by omega
        exact ih (i + 1) j (by omega) (by rw [hrw]; exact hr)

/-! ## Helper lemmas: the stable priority sort -/

theorem mappingLE_trans : ∀ (a b c : ImageMapping),
    mappingLE a b → mappingLE b c → mappingLE a c := by
  intro a b c
  simp only [mappingLE, decide_eq_true_eq]
  omega

theorem mappingLE_total : ∀ (a b : ImageMapping), mappingLE a b || mappingLE b a := by
  intro a b
  simp only [mappingLE]
  rcases Int.le_total a.priority b.priority with h | h <;> simp [h]

/-- Leftmost element of minimal priority: keep the earlier element unless a
strictly smaller priority appears later. -/
def firstMin? : List ImageMapping → Option ImageMapping
  | [] => none
  | m :: rest =>
    match firstMin? rest with
    | none => some m
    | some m2 => if m2.priority < m.priority then some m2 else some m

theorem firstMin?_cons (a : ImageMapping) (t : List ImageMapping) :
    firstMin? (a :: t) =
      match firstMin? t with
      | none => some a
      | some m2 => if m2.priority < a.priority then some m2 else some a := rfl

theorem firstMin?_eq_none : ∀ (l : List ImageMapping), firstMin? l = none ↔ l = [] := by
  intro l
  cases l with
  | nil => simp [firstMin?]
  | cons a t =>
    simp only [firstMin?]
    cases firstMin? t with
    | none => simp
    | some m2 =>
      by_cases h : m2.priority < a.priority <;> simp [h]

theorem firstMin?_min : ∀ (l : List ImageMapping) (m : ImageMapping),
    firstMin? l = some m → ∀ y ∈ l, m.priority ≤ y.priority := by
  intro l
  induction l with
  | nil => intro m h; simp [firstMin?] at h
  | cons a t ih =>
    intro m h y hy
    rcases hrest : firstMin? t with _ | m2 <;>
      simp only [firstMin?, hrest] at h
    · injection h with h
      subst h
      rcases List.mem_cons.mp hy with rfl | hyt
      · exact Int.le_refl _
      · have ht : t = [] := (firstMin?_eq_none t).mp hrest
        subst ht
        simp at hyt
    · by_cases hlt : m2.priority < a.priority
      · rw [if_pos hlt] at h
        injection h with h
        subst h
        rcases List.mem_cons.mp hy with rfl | hyt
        · exact Int.le_of_lt hlt
        · exact ih m2 hrest y hyt
      · rw [if_neg hlt] at h
        injection h with h
        subst h
        rcases List.mem_cons.mp hy with rfl | hyt
        · exact Int.le_refl _
        · exact Int.le_trans (Int.not_lt.mp hlt) (ih m2 hrest y hyt)

theorem firstMin?_decomp : ∀ (l : List ImageMapping) (m : ImageMapping),
    firstMin? l = some m →
    ∃ l₁ l₂, l = l₁ ++ m :: l₂ ∧ ∀ x ∈ l₁, m.priority < x.priority := by
  intro l
  induction l with
  | nil => intro m h; simp [firstMin?] at h
  | cons a t ih =>
    intro m h
    rcases hrest : firstMin? t with _ | m2 <;>
      simp only [firstMin?, hrest] at h
    · injection h with h
      subst h
      exact ⟨[], t, rfl, by simp⟩
    · by_cases hlt : m2.priority < a.priority
      · rw [if_pos hlt] at h
        injection h with h
        subst h
        obtain ⟨t₁, t₂, ht, hx⟩ := ih m2 hrest
        refine ⟨a :: t₁, t₂, by rw [ht]; rfl, ?_⟩
        intro x hx'
        rcases List.mem_cons.mp hx' with rfl | hxt
        · exact hlt
        · exact hx x hxt
      · rw [if_neg hlt] at h
        injection h with h
        subst h
        exact ⟨[], t, rfl, by simp⟩

/-- Head of the stable sort by ascending priority is the leftmost element of
minimal priority. -/
theorem head?_mergeSort_eq_firstMin? :
    ∀ (l : List ImageMapping), (l.mergeSort mappingLE).head? = firstMin? l
  | [] => by simp [firstMin?]
  | a :: t => by
    obtain ⟨l₁, l₂, h₁, h₂, h₃⟩ := List.mergeSort_cons mappingLE_trans mappingLE_total a t
    have ih := head?_mergeSort_eq_firstMin? t
    cases l₁ with
    | nil =>
      simp only [List.nil_append] at h₁ h₂
      rw [h₁]
      simp only [List.head?_cons]
      cases t with
      | nil => simp [firstMin?]
      | cons b t' =>
        have hne : l₂ ≠ [] := by
          intro hnil
          rw [hnil] at h₂
          have hlen := congrArg List.length h₂
          simp at hlen
        rcases hl₂ : l₂ with _ | ⟨c, l₂'⟩
        · exact absurd hl₂ hne
        · subst hl₂
          have hm2 : firstMin? (b :: t') = some c := by
            rw [← ih, h₂]
            rfl
          have hsorted := List.sorted_mergeSort mappingLE_trans mappingLE_total (a :: b :: t')
          rw [h₁] at hsorted
          have hac : mappingLE a c = true := (List.pairwise_cons.mp hsorted).1 c (by simp)
          have hac2 : a.priority ≤ c.priority := by
            simpa [mappingLE] using hac
          show some a = firstMin? (a :: b :: t')
          rw [firstMin?_cons, hm2]
          show some a = if c.priority < a.priority then some c else some a
          rw [if_neg (by omega)]
    | cons b l₁' =>
      have hhead : ((a :: t).mergeSort mappingLE).head? = some b := by
        rw [h₁]; rfl
      have hb : firstMin? t = some b := by
        rw [← ih, h₂]; rfl
      have hba : b.priority < a.priority := by
        have h4 := h₃ b (by simp)
        simp only [Bool.not_eq_true'] at h4
        simp only [mappingLE, decide_eq_false_iff_not, Int.not_le] at h4
        exact h4
      rw [hhead]
      simp only [firstMin?, hb]
      rw [if_pos hba]

/-! ## Helper lemmas: nonemptiness of the decimal representation -/

theorem toDigitsCore_length_ge (b : Nat) :
    ∀ (fuel n : Nat) (ds : List Char),
      ds.length ≤ (Nat.toDigitsCore b fuel n ds).length := by
  intro fuel
  induction fuel with
  | zero => intro n ds; simp [Nat.toDigitsCore]
  | succ fuel ih =>
    intro n ds
    simp only [Nat.toDigitsCore]
    by_cases h : n / b = 0
    · simp [h]
    · rw [if_neg h]
      calc ds.length ≤ (Nat.digitChar (n % b) :: ds).length := by simp
        _ ≤ _ := ih (n / b) (Nat.digitChar (n % b) :: ds)

theorem toDigits_ne_nil (b n : Nat) : Nat.toDigits b n ≠ [] := by
  unfold Nat.toDigits
  unfold Nat.toDigitsCore
  by_cases h : n / b = 0
  · simp [h]
  · rw [if_neg h]
    intro hnil
    have := toDigitsCore_length_ge b n (n / b) [Nat.digitChar (n % b)]
    rw [hnil] at this
    simp at this

theorem Nat.repr_ne_empty (n : Nat) : Nat.repr n ≠ "" := by
  intro h
  have hdata : (Nat.toDigits 10 n) = ([] : List Char) := by
    have := congrArg String.data h
    simpa [Nat.repr, List.asString] using this
  exact toDigits_ne_nil 10 n hdata

/-! ## Helper lemmas: the selector -/

theorem preferredHit_some {P : Type} (pg : Playground P) (mappings : List ImageMapping)
    (pref : Option String) (m : ImageMapping)
    (h : preferredHit pg mappings pref = some m) :
    pg.hasProvider m.provider = true := by
  rcases pref with _ | p
  · simp [preferredHit] at h
  · rcases hf : mappings.find? (fun x => x.provider == p) with _ | w <;>
      simp only [preferredHit, hf] at h
    · cases h
    · by_cases hreg : pg.hasProvider w.provider = true
      · rw [if_pos hreg] at h
        injection h with h
        subst h
        exact hreg
      · rw [if_neg hreg] at h
        cases h

theorem selectProvider_ok_registered {P : Type} (pg : Playground P)
    (mappings : List ImageMapping) (pref : Option String) (m : ImageMapping)
    (h : selectProvider pg mappings pref = .ok m) :
    pg.hasProvider m.provider = true := by
  rcases hp : preferredHit pg mappings pref with _ | w <;>
    simp only [selectProvider, hp] at h
  · rcases hs : (mappings.filter (fun x => pg.hasProvider x.provider)).mergeSort mappingLE
        with _ | ⟨c, rest⟩ <;> rw [hs] at h
    · cases h
    · injection h with h
      subst h
      have hms : c ∈ (mappings.filter (fun x => pg.hasProvider x.provider)).mergeSort
          mappingLE := by
        rw [hs]
        exact List.mem_cons_self c rest
      exact (List.mem_filter.mp (List.mem_mergeSort.mp hms)).2
  · injection h with h
    subst h
    exact preferredHit_some pg mappings pref w hp

theorem selectProvider_error_eq {P : Type} (pg : Playground P)
    (mappings : List ImageMapping) (pref : Option String) (e : PlaygroundError)
    (h : selectProvider pg mappings pref = .error e) :
    e = .noAvailableProviders := by
  rcases hp : preferredHit pg mappings pref with _ | w <;>
    simp only [selectProvider, hp] at h
  · rcases hs : (mappings.filter (fun x => pg.hasProvider x.provider)).mergeSort mappingLE
        with _ | ⟨c, rest⟩ <;> rw [hs] at h
    · injection h with h
      exact h.symm
    · cases h
  · cases h

/-! ## Claim C3 -/

/-- Claim C3: for every non-empty candidate list with at least one registered
candidate, selection with no preferred provider returns a registered candidate
of minimal priority among the registered ones, and every registered candidate
strictly before it in the original list has strictly greater priority (the
priority sort is stable, so ties go to the earliest candidate). -/
theorem select_no_preference_returns_first_minimal {P : Type} (pg : Playground P)
    (mappings : List ImageMapping)
    (hne : mappings.filter (fun m => pg.hasProvider m.provider) ≠ []) :
    ∃ m l₁ l₂, selectProvider pg mappings none = .ok m ∧
      pg.hasProvider m.provider = true ∧
      (∀ y ∈ mappings, pg.hasProvider y.provider = true → m.priority ≤ y.priority) ∧
      mappings = l₁ ++ m :: l₂ ∧
      (∀ x ∈ l₁, pg.hasProvider x.provider = true → m.priority < x.priority) := by
  rcases hfm : firstMin? (mappings.filter (fun m => pg.hasProvider m.provider)) with _ | m
  · exact absurd ((firstMin?_eq_none _).mp hfm) hne
  · have hhead :
        (((mappings.filter (fun m => pg.hasProvider m.provider)).mergeSort mappingLE).head?)
          = some m := by
      rw [head?_mergeSort_eq_firstMin?, hfm]
    obtain ⟨ys, hys⟩ := List.head?_eq_some_iff.mp hhead
    have hsel : selectProvider pg mappings none = .ok m := by
      simp only [selectProvider, preferredHit]
      rw [hys]
    have hmin := firstMin?_min _ m hfm
    obtain ⟨F₁, F₂, hF, hFlt⟩ := firstMin?_decomp _ m hfm
    obtain ⟨l₁, l₂x, hl, hf₁, hf₂⟩ := List.filter_eq_append_iff.mp hF
    obtain ⟨l₂a, l₂b, hl₂, hnotp, hpm, _⟩ := List.filter_eq_cons_iff.mp hf₂
    refine ⟨m, l₁ ++ l₂a, l₂b, hsel, hpm, ?_, ?_, ?_⟩
    · intro y hy hyreg
      exact hmin y (List.mem_filter.mpr ⟨hy, hyreg⟩)
    · rw [hl, hl₂, List.append_assoc]
    · intro x hx hxreg
      rcases List.mem_append.mp hx with hx₁ | hx₂
      · have hxf : x ∈ (l₁.filter (fun m => pg.hasProvider m.provider)) :=
          List.mem_filter.mpr ⟨hx₁, hxreg⟩
        rw [hf₁] at hxf
        exact hFlt x hxf
      · exact absurd hxreg (by simpa using hnotp x hx₂)

/-- Instantiation data for the selector claims. -/
def mapP1 : ImageMapping :=
  { provider := "p1", image := "img-1", size := "small", priority := 2, ttl := some 3600 }

def mapP2 : ImageMapping :=
  { provider := "p2", image := "img-2", size := "small", priority := 1, ttl := some 7200 }

def pgTwoProviders : Playground Unit :=
  { providers := [("p1", ()), ("p2", ())]
    imageMappings := [("ubuntu-22-small", [mapP1, mapP2])] }

/-- Claim C3 witness: both providers registered, `p2` has the smaller
priority and is selected. -/
theorem select_no_preference_returns_first_minimal_witness :
    [mapP1, mapP2].filter (fun m => pgTwoProviders.hasProvider m.provider) ≠ [] ∧
    ∃ m l₁ l₂, selectProvider pgTwoProviders [mapP1, mapP2] none = .ok m ∧
      pgTwoProviders.hasProvider m.provider = true ∧
      (∀ y ∈ [mapP1, mapP2], pgTwoProviders.hasProvider y.provider = true →
        m.priority ≤ y.priority) ∧
      [mapP1, mapP2] = l₁ ++ m :: l₂ ∧
      (∀ x ∈ l₁, pgTwoProviders.hasProvider x.provider = true →
        m.priority < x.priority) :=
  ⟨by simp [mapP1, pgTwoProviders, Playground.hasProvider],
   select_no_preference_returns_first_minimal pgTwoProviders [mapP1, mapP2]
     (by simp [mapP1, pgTwoProviders, Playground.hasProvider])⟩

/-! ## Claim C4 -/

/-- Claim C4: when the preferred provider name matches some candidate and is
registered, selection returns the first candidate in original list order whose
provider equals the preferred name, regardless of priorities. -/
theorem select_preferred_registered_wins {P : Type} (pg : Playground P)
    (mappings : List ImageMapping) (pref : String) (w : ImageMapping)
    (hmem : w ∈ mappings) (hw : w.provider = pref)
    (hreg : pg.hasProvider pref = true) :
    ∃ m l₁ l₂, selectProvider pg mappings (some pref) = .ok m ∧
      m.provider = pref ∧ mappings = l₁ ++ m :: l₂ ∧
      ∀ x ∈ l₁, x.provider ≠ pref := by
  rcases hf : mappings.find? (fun x => x.provider == pref) with _ | m
  · exfalso
    have hfind : (mappings.find? (fun x => x.provider == pref)).isSome := by
      rw [List.find?_isSome]
      exact ⟨w, hmem, by simp [hw]⟩
    rw [hf] at hfind
    simp at hfind
  · obtain ⟨hpm, as, bs, hsplit, hbefore⟩ := List.find?_eq_some.mp hf
    have hmp : m.provider = pref := by simpa using hpm
    have hsel : selectProvider pg mappings (some pref) = .ok m := by
      simp only [selectProvider, preferredHit, hf]
      rw [if_pos (by rw [hmp]; exact hreg)]
    refine ⟨m, as, bs, hsel, hmp, hsplit, ?_⟩
    intro x hx
    simpa using hbefore x hx

/-- Claim C4 witness: preferring `p1` overrides `p2`'s smaller priority. -/
theorem select_preferred_registered_wins_witness :
    mapP1 ∈ [mapP1, mapP2] ∧ mapP1.provider = "p1" ∧
    pgTwoProviders.hasProvider "p1" = true ∧
    ∃ m l₁ l₂, selectProvider pgTwoProviders [mapP1, mapP2] (some "p1") = .ok m ∧
      m.provider = "p1" ∧ [mapP1, mapP2] = l₁ ++ m :: l₂ ∧
      ∀ x ∈ l₁, x.provider ≠ "p1" :=
  ⟨List.mem_cons_self mapP1 [mapP2], rfl, rfl,
   select_preferred_registered_wins pgTwoProviders [mapP1, mapP2] "p1" mapP1
     (List.mem_cons_self mapP1 [mapP2]) rfl rfl⟩

/-! ## Claim C5 (corrected) -/

/-- A routing entry whose provider is not registered anywhere. -/
def mapUnregistered : ImageMapping :=
  { provider := "p1", image := "img-1", size := "small", priority := 1, ttl := some 3600 }

/-- A playground with an empty provider registry. -/
def pgNoProviders : Playground Unit :=
  { providers := [], imageMappings := [("ubuntu-22-small", [mapUnregistered])] }

/-- Claim C5 counterexample: with no registered candidate the selector does
fail with the `noAvailableProviders` error (with or without a preference), but
that error carries no image-type field and its message — the fixed string of
`selectProvider` — does not contain the requested image-type name
`ubuntu-22-small`, contradicting the claim that the error identifies the
image type. -/
theorem noAvailableProviders_lacks_image_type :
    selectProvider pgNoProviders [mapUnregistered] none
      = .error .noAvailableProviders ∧
    selectProvider pgNoProviders [mapUnregistered] (some "p1")
      = .error .noAvailableProviders ∧
    strContains (errorMessage .noAvailableProviders) "ubuntu-22-small" = false := by
  refine ⟨?_, ?_, ?_⟩
  · simp [selectProvider, preferredHit, mapUnregistered, pgNoProviders,
      Playground.hasProvider]
  · simp [selectProvider, preferredHit, mapUnregistered, pgNoProviders,
      Playground.hasProvider, List.find?]
  · decide

/-- Claim C5 amended: for every non-empty candidate list in which no
candidate's provider is registered, selection fails with the
`noAvailableProviders` error whether or not a preference was supplied; the
error's message is the fixed string `noAvailableProvidersMessage`, which does
not mention the image type (the selector is never told the image type). -/
theorem select_none_registered_noAvailableProviders {P : Type} (pg : Playground P)
    (mappings : List ImageMapping) (pref : Option String)
    (hne : mappings ≠ [])
    (hnoreg : ∀ m ∈ mappings, pg.hasProvider m.provider = false) :
    selectProvider pg mappings pref = .error .noAvailableProviders ∧
    errorMessage .noAvailableProviders = noAvailableProvidersMessage := by
  have hkeep : mappings ≠ [] := hne
  constructor
  · have hph : preferredHit pg mappings pref = none := by
      rcases pref with _ | p
      · rfl
      · rcases hf : mappings.find? (fun x => x.provider == p) with _ | w
        · simp [preferredHit, hf]
        · have hw : w ∈ mappings := List.mem_of_find?_eq_some hf
          simp [preferredHit, hf, hnoreg w hw]
    have hfil : mappings.filter (fun m => pg.hasProvider m.provider) = [] := by
      rw [List.filter_eq_nil_iff]
      intro a ha
      simp [hnoreg a ha]
    simp only [selectProvider, hph, hfil, List.mergeSort_nil]
  · rfl

/-- Claim C5 amended, witness: the concrete empty-registry playground. -/
theorem select_none_registered_noAvailableProviders_witness :
    selectProvider pgNoProviders [mapUnregistered] (some "p2")
      = .error .noAvailableProviders ∧
    errorMessage .noAvailableProviders = noAvailableProvidersMessage :=
  select_none_registered_noAvailableProviders pgNoProviders [mapUnregistered]
    (some "p2") (by simp)
    (fun m hm => by
      rw [List.mem_singleton] at hm
      subst hm
      rfl)

/-! ## Claim C7 -/

/-- Claim C7: the defensive `ProviderUnavailable` branch of `createInstance`
is unreachable — whenever selection returns a mapping, that mapping's provider
is present in the registry, so `createInstance` never produces the
`providerUnavailable` error, for any registry, routing table, preference,
clock value and provider behaviour. -/
theorem createInstance_defensive_branch_unreachable {P : Type} (pg : Playground P)
    (f : P → ImageSpec → String → Option String → Except String Instance)
    (now : Int) (args : CreateInstanceArgs) :
    isProviderUnavailableResult (createInstance pg f now args) = false := by
  unfold createInstance
  split
  · rfl
  · split
    · rfl
    · split
      · rename_i e hs
        have he : e = .noAvailableProviders :=
          selectProvider_error_eq pg _ args.preferredProvider e hs
        subst he
        rfl
      · rename_i m hs
        have hreg := selectProvider_ok_registered pg _ args.preferredProvider m hs
        simp only [Playground.hasProvider, Option.isSome_iff_exists] at hreg
        obtain ⟨prov, hprov⟩ := hreg
        split
        · rename_i hnone
          rw [hprov] at hnone
          cases hnone
        · split
          · rfl
          · rfl

/-! ## Claim C9 -/

/-- Claim C9: `isExpired` is true iff `now ≥ createdAt + ttl`, the boundary
instant counts as expired, and `isExpired` holds exactly when
`getTimeToExpiry` is at most zero. -/
theorem isExpired_iff_boundary (inst : PlaygroundInstance) (now : Int) :
    (PlaygroundUtils.isExpired now inst = true ↔ now ≥ inst.createdAt + inst.ttl) ∧
    (PlaygroundUtils.isExpired now inst = true ↔
      PlaygroundUtils.getTimeToExpiry now inst ≤ 0) ∧
    PlaygroundUtils.isExpired (inst.createdAt + inst.ttl) inst = true := by
  unfold PlaygroundUtils.isExpired PlaygroundUtils.getTimeToExpiry
  refine ⟨by simp, ?_, by simp⟩
  simp only [decide_eq_true_eq]
  omega

/-! ## Claim C10 -/

/-- Claim C10: for an image type with no routing entry, `getImageMappings`
returns the empty array while `createInstance` fails with the
`unknownImageType` error for the same name — querying an unknown image type
never raises. -/
theorem getImageMappings_unknown_safe {P : Type} (pg : Playground P)
    (imageType : String)
    (h : pg.imageMappings.lookup imageType = none) :
    getImageMappings pg imageType = [] ∧
    ∀ (f : P → ImageSpec → String → Option String → Except String Instance)
      (now : Int) (args : CreateInstanceArgs), args.imageType = imageType →
      createInstance pg f now args = .error (.unknownImageType imageType) := by
  constructor
  · unfold getImageMappings
    rw [h]
    rfl
  · intro f now args ha
    unfold createInstance
    rw [ha, h]

/-- Claim C10 witness: the image type `nonexistent` has no entry in the
two-provider playground. -/
theorem getImageMappings_unknown_safe_witness :
    getImageMappings pgTwoProviders "nonexistent" = [] ∧
    ∀ (f : Unit → ImageSpec → String → Option String → Except String Instance)
      (now : Int) (args : CreateInstanceArgs), args.imageType = "nonexistent" →
      createInstance pgTwoProviders f now args
        = .error (.unknownImageType "nonexistent") :=
  getImageMappings_unknown_safe pgTwoProviders "nonexistent" rfl

/-! ## Claim C8 (corrected) -/

/-- Claim C8 amended: on every successful `createInstance`, the record's
`createdAt` is the clock value taken when the return record is built, and the
record's `ttl` equals the selected mapping's `ttl` whenever that value is
present and nonzero, and equals 3600 when the mapping's `ttl` is absent or
zero (the source computes `selectedMapping.ttl || 3600`, and `0` is falsy
in JS). -/
theorem createInstance_ttl_and_createdAt {P : Type} (pg : Playground P)
    (f : P → ImageSpec → String → Option String → Except String Instance)
    (now : Int) (args : CreateInstanceArgs) (r : PlaygroundInstance)
    (h : createInstance pg f now args = .ok r) :
    ∃ mappings m, pg.imageMappings.lookup args.imageType = some mappings ∧
      selectProvider pg mappings args.preferredProvider = .ok m ∧
      r.createdAt = now ∧
      (∀ t, m.ttl = some t → t ≠ 0 → r.ttl = t) ∧
      ((m.ttl = none ∨ m.ttl = some 0) → r.ttl = 3600) := by
  unfold createInstance at h
  split at h
  · cases h
  · rename_i mappings hl
    split at h
    · cases h
    · split at h
      · cases h
      · rename_i m hs
        split at h
        · cases h
        · split at h
          · cases h
          · rename_i inst hf
            injection h with h
            subst h
            refine ⟨mappings, m, hl, hs, rfl, ?_, ?_⟩
            · intro t ht hnz
              simp [jsOr, ht, hnz]
            · rintro (h0 | h0) <;> simp [jsOr, h0]

/-- Routing entry carrying an explicit `ttl: 0`. -/
def mapTtlZero : ImageMapping :=
  { provider := "p1", image := "img-1", size := "small", priority := 1, ttl := some 0 }

def pgTtlZero : Playground Unit :=
  { providers := [("p1", ())], imageMappings := [("ubuntu-22-small", [mapTtlZero])] }

/-- A provider whose create call always succeeds. -/
def stubCreateVM : Unit → ImageSpec → String → Option String → Except String Instance :=
  fun _ _ _ _ => .ok { id := "vm-1", ip := "10.0.0.1" }

def argsTtlZero : CreateInstanceArgs :=
  { imageType := "ubuntu-22-small", sshKey := "ssh-rsa AAA"
    startupScript := none, preferredProvider := none }

/-- Claim C8 counterexample: the selected mapping's `ttl` is present (`0`),
yet the returned record's `ttl` is `3600`, because the source computes the
default with `||`, which treats the present value `0` as absent. -/
theorem createInstance_ttl_zero_defaults_to_3600 :
    mapTtlZero.ttl = some 0 ∧
    createInstance pgTtlZero stubCreateVM 1000 argsTtlZero
      = .ok { id := "vm-1", ip := "10.0.0.1", provider := "p1"
              imageType := "ubuntu-22-small", createdAt := 1000, ttl := 3600
              sshKey := "ssh-rsa AAA" } := by
  refine ⟨rfl, ?_⟩
  simp [createInstance, selectProvider, preferredHit, pgTtlZero, mapTtlZero,
    argsTtlZero, stubCreateVM, Playground.hasProvider, jsOr, List.lookup]

/-- Routing entry carrying an explicit nonzero `ttl: 7200`. -/
def mapTtl7200 : ImageMapping :=
  { provider := "p1", image := "img-1", size := "small", priority := 1, ttl := some 7200 }

def pgTtl7200 : Playground Unit :=
  { providers := [("p1", ())], imageMappings := [("ubuntu-22-small", [mapTtl7200])] }

/-- Claim C8 amended, witness: a mapping with `ttl: 7200` yields a record
with `ttl = 7200` and `createdAt` equal to the supplied clock value. -/
theorem createInstance_ttl_and_createdAt_witness :
    ∃ mappings m,
      pgTtl7200.imageMappings.lookup argsTtlZero.imageType = some mappings ∧
      selectProvider pgTtl7200 mappings argsTtlZero.preferredProvider = .ok m ∧
      ∀ r, createInstance pgTtl7200 stubCreateVM 1000 argsTtlZero = .ok r →
        r.createdAt = 1000 ∧ r.ttl = 7200 := by
  have hrun : createInstance pgTtl7200 stubCreateVM 1000 argsTtlZero
      = .ok { id := "vm-1", ip := "10.0.0.1", provider := "p1"
              imageType := "ubuntu-22-small", createdAt := 1000, ttl := 7200
              sshKey := "ssh-rsa AAA" } := by
    simp [createInstance, selectProvider, preferredHit, pgTtl7200, mapTtl7200,
      argsTtlZero, stubCreateVM, Playground.hasProvider, jsOr, List.lookup]
  obtain ⟨mappings, m, hl, hs, hca, hsome, hzero⟩ :=
    createInstance_ttl_and_createdAt pgTtl7200 stubCreateVM 1000 argsTtlZero _ hrun
  refine ⟨mappings, m, hl, hs, ?_⟩
  intro r hr
  rw [hrun] at hr
  injection hr with hr
  subst hr
  exact ⟨rfl, rfl⟩

/-! ## Claim C2 -/

/-- Claim C2: in each of the four adapters that poll (DigitalOcean, Hetzner,
GCP, AWS), if the ready predicate never holds the loop makes exactly 30
describe calls — `maxAttempts = 30` in every adapter, counting the first —
and then falls through to the timeout throw (`found = none`). -/
theorem pollers_timeout_after_exactly_thirty_calls
    (d1 : Nat → DoDroplet) (d2 : Nat → HetznerServer)
    (d3 : Nat → GcpInstance) (d4 : Nat → AwsVm)
    (h1 : ∀ n, doReady (d1 n) = false) (h2 : ∀ n, hetznerReady (d2 n) = false)
    (h3 : ∀ n, gcpReady (d3 n) = false) (h4 : ∀ n, awsReady (d4 n) = false) :
    doWaitForDropletReady d1 = ⟨none, 30⟩ ∧
    hetznerWaitForServerReady d2 = ⟨none, 30⟩ ∧
    gcpWaitForVMReady d3 = ⟨none, 30⟩ ∧
    awsWaitForInstanceReady d4 = ⟨none, 30⟩ :=
  ⟨pollFrom_never_ready d1 doReady h1 30 0,
   pollFrom_never_ready d2 hetznerReady h2 30 0,
   pollFrom_never_ready d3 gcpReady h3 30 0,
   pollFrom_never_ready d4 awsReady h4 30 0⟩

/-- Snapshots that never satisfy the ready predicates. -/
def dropletNew : DoDroplet :=
  { id := 1, status := "new", networksV4 := [] }

def serverInitializing : HetznerServer :=
  { id := 7, status := "initializing", public_net := { ipv4 := none } }

def gcpProvisioning : GcpInstance :=
  { idNum := some 5, name := "playground-1", status := "PROVISIONING", natIP := none }

def awsPending : AwsVm :=
  { id := "i-1", ip := "", state := "pending" }

/-- Claim C2 witness: constant never-ready describe streams make each poller
fail after exactly 30 calls. -/
theorem pollers_timeout_after_exactly_thirty_calls_witness :
    doWaitForDropletReady (fun _ => dropletNew) = ⟨none, 30⟩ ∧
    hetznerWaitForServerReady (fun _ => serverInitializing) = ⟨none, 30⟩ ∧
    gcpWaitForVMReady (fun _ => gcpProvisioning) = ⟨none, 30⟩ ∧
    awsWaitForInstanceReady (fun _ => awsPending) = ⟨none, 30⟩ :=
  pollers_timeout_after_exactly_thirty_calls
    (fun _ => dropletNew) (fun _ => serverInitializing)
    (fun _ => gcpProvisioning) (fun _ => awsPending)
    (fun _ => rfl) (fun _ => rfl) (fun _ => rfl) (fun _ => rfl)

/-! ## Claim C6 (corrected) -/

/-- Claim C6 counterexample: the Azure adapter's destroy swallows every
provider error — a quota error reports success — and the GCP adapter has no
catch at all, so a not-found error is propagated as a failure rather than
treated as success; both contradict the claim that exactly the not-found case
is tolerated in every adapter. -/
theorem azure_gcp_destroy_policy_refuted :
    azureDestroyVM (.error "QuotaExceeded") (.ok ()) (.ok ()) = .ok () ∧
    gcpDestroyVM (.error "Instance not found") = .error "Instance not found" :=
  ⟨rfl, rfl⟩

/-- Claim C6 amended: in the Oracle, Hetzner, AWS and DigitalOcean adapters,
destroy treats the provider's not-found outcome (each adapter matching its
vendor's marker: `NotFound`, `not found`, `InvalidInstanceID.NotFound`, or
HTTP 404) as success and propagates every other provider error; the Azure
adapter instead swallows every error from its three delete calls, and the GCP
adapter propagates every error including not-found. -/
theorem destroy_not_found_tolerated_others_propagated (msg : String) (status : Nat) :
    oracleDestroyVM (.ok ()) = .ok () ∧
    (strContains msg "NotFound" = true → oracleDestroyVM (.error msg) = .ok ()) ∧
    (strContains msg "NotFound" = false → oracleDestroyVM (.error msg) = .error msg) ∧
    hetznerDestroyVM (.ok ()) = .ok () ∧
    (strContains msg "not found" = true → hetznerDestroyVM (.error msg) = .ok ()) ∧
    (strContains msg "not found" = false → hetznerDestroyVM (.error msg) = .error msg) ∧
    awsDestroyVM (.ok ()) = .ok () ∧
    (strContains msg "InvalidInstanceID.NotFound" = true →
      awsDestroyVM (.error msg) = .ok ()) ∧
    (strContains msg "InvalidInstanceID.NotFound" = false →
      awsDestroyVM (.error msg) = .error msg) ∧
    (status = 404 → doDestroyVM status msg = .ok ()) ∧
    (200 ≤ status → status < 300 → doDestroyVM status msg = .ok ()) ∧
    (¬(200 ≤ status ∧ status < 300) → status ≠ 404 →
      doDestroyVM status msg = .error msg) := by
  refine ⟨rfl, ?_, ?_, rfl, ?_, ?_, rfl, ?_, ?_, ?_, ?_, ?_⟩
  · intro h; simp [oracleDestroyVM, h]
  · intro h; simp [oracleDestroyVM, h]
  · intro h; simp [hetznerDestroyVM, h]
  · intro h; simp [hetznerDestroyVM, h]
  · intro h; simp [awsDestroyVM, h]
  · intro h; simp [awsDestroyVM, h]
  · intro h; subst h; simp [doDestroyVM]
  · intro h1 h2; simp [doDestroyVM, h1, h2]
  · intro hno h404
    by_cases hA : 200 ≤ status <;> by_cases hB : status < 300
    · exact absurd ⟨hA, hB⟩ hno
    · simp [doDestroyVM, hA, hB, h404]
    · simp [doDestroyVM, hA, hB, h404]
    · simp [doDestroyVM, hA, hB, h404]

/-- Claim C6 amended, witness: each tolerant adapter at a concrete not-found
outcome and a concrete unrelated error. -/
theorem destroy_not_found_tolerated_witness :
    oracleDestroyVM (.error "NotFound: instance gone") = .ok () ∧
    oracleDestroyVM (.error "QuotaExceeded") = .error "QuotaExceeded" ∧
    hetznerDestroyVM (.error "Hetzner API error: server not found") = .ok () ∧
    awsDestroyVM (.error "InvalidInstanceID.NotFound: i-0 does not exist") = .ok () ∧
    doDestroyVM 404 "DigitalOcean API error: not found" = .ok () ∧
    doDestroyVM 500 "DigitalOcean API error: server error"
      = .error "DigitalOcean API error: server error" :=
  ⟨(destroy_not_found_tolerated_others_propagated "NotFound: instance gone" 404).2.1
      (by decide),
   (destroy_not_found_tolerated_others_propagated "QuotaExceeded" 404).2.2.1
      (by decide),
   (destroy_not_found_tolerated_others_propagated
      "Hetzner API error: server not found" 404).2.2.2.2.1 (by decide),
   (destroy_not_found_tolerated_others_propagated
      "InvalidInstanceID.NotFound: i-0 does not exist" 404).2.2.2.2.2.2.2.1 (by decide),
   (destroy_not_found_tolerated_others_propagated
      "DigitalOcean API error: not found" 404).2.2.2.2.2.2.2.2.2.1 rfl,
   (destroy_not_found_tolerated_others_propagated
      "DigitalOcean API error: server error" 500).2.2.2.2.2.2.2.2.2.2.2
      (by omega) (by omega)⟩

/-! ## Claim C1 (corrected) -/

/-- A concrete successful `launchInstance` response. -/
def ociLaunched : OciInstance :=
  { id := "ocid1.instance.oc1.iad.aaaa", lifecycleState := "PROVISIONING" }

/-- Claim C1 counterexample: the Oracle adapter's `createVM` performs no
readiness polling at all and, on every successful creation, returns an
instance whose address is the empty string (`createVNIC` always yields
`publicIp: undefined`, and the result is built as `publicIp || ''`); the
claim requires a non-empty address on every adapter's successful creation
path. -/
theorem oracle_createVM_returns_empty_ip :
    oracleCreateVM "subnet-1" ociLaunched
      = { id := "ocid1.instance.oc1.iad.aaaa", ip := "" } ∧
    ("ocid1.instance.oc1.iad.aaaa" : String) ≠ "" := by
  exact ⟨rfl, by decide⟩

/-- Claim C1 amended: the Hetzner adapter behaves as the claim describes —
its poller requires status `running` and a non-empty address, and a
successful `createVM` returns a record with a non-empty identifier (the
decimal form of the numeric server id) and, provided describe snapshots stay
ready once ready (the post-poll refetch does not regress), a non-empty
address; an empty address can arise only as the poller-timeout failure. The
claim's universal form over all adapters fails: Oracle and Azure never poll
(Oracle's successful result always carries an empty address), GCP's poller
checks only the `RUNNING` status, AWS's address may fall back to the private
one, and DigitalOcean's predicate checks presence of a public network entry
rather than non-emptiness of its address string. -/
theorem hetzner_createVM_success_nonempty
    (createResp : HetznerServer) (describe : Nat → HetznerServer)
    (j : Nat) (hj : j < 30) (hready : hetznerReady (describe j) = true)
    (hstable : ∀ i k, i ≤ k → hetznerReady (describe i) = true →
      hetznerReady (describe k) = true) :
    ∃ inst, hetznerCreateVM createResp describe = .ok inst ∧
      inst.id ≠ "" ∧ inst.ip ≠ "" := by
  have hsome : ((pollFrom describe hetznerReady 30 0).found).isSome :=
    pollFrom_found_of_ready describe hetznerReady 30 0 j hj (by simpa using hready)
  obtain ⟨s, hs⟩ := Option.isSome_iff_exists.mp hsome
  obtain ⟨h1, h2, h3⟩ := pollFrom_found_spec describe hetznerReady 30 0 s hs
  have hcready :
      hetznerReady (describe ((pollFrom describe hetznerReady 30 0).calls)) = true := by
    refine hstable (0 + (pollFrom describe hetznerReady 30 0).calls - 1) _ (by omega) ?_
    rw [← h2]
    exact h3
  set d := describe ((pollFrom describe hetznerReady 30 0).calls) with hd
  have hip : ∃ v, d.public_net.ipv4 = some v ∧ v.ip ≠ "" := by
    unfold hetznerReady at hcready
    rcases hi : d.public_net.ipv4 with _ | v
    · rw [hi] at hcready
      simp at hcready
    · rw [hi] at hcready
      simp only [Bool.and_eq_true, bne_iff_ne, ne_eq] at hcready
      exact ⟨v, rfl, hcready.2⟩
  obtain ⟨v, hv, hvne⟩ := hip
  refine ⟨{ id := Nat.repr createResp.id, ip := v.ip }, ?_,
    Nat.repr_ne_empty _, hvne⟩
  unfold hetznerCreateVM hetznerWaitForServerReady awaitReady
  simp only [hs]
  rw [← hd, hv]
  rfl

/-- A server snapshot that is ready from the start. -/
def serverRunning : HetznerServer :=
  { id := 42, status := "running", public_net := { ipv4 := some { ip := "203.0.113.5" } } }

/-- Claim C1 amended, witness: a constantly-ready describe stream yields a
successful creation with non-empty identifier and address. -/
theorem hetzner_createVM_success_nonempty_witness :
    ∃ inst, hetznerCreateVM serverRunning (fun _ => serverRunning) = .ok inst ∧
      inst.id ≠ "" ∧ inst.ip ≠ "" :=
  hetzner_createVM_success_nonempty serverRunning (fun _ => serverRunning)
    0 (by omega) (by decide) (fun _ _ _ hr => hr)
